import Mathlib

/-!
Verification development for the OSINT multi-site probing engine.

Shallow embedding of the site-definition data model, the per-site
found/not-found decision logic, the retry loops of the two probe
strategies, the scan result collection, the catalog loader/refresher
and the legacy-record normalization, each translated from the Python
source (`modules/full_name_scanner.py`, `modules/username_scanner.py`,
`modules/sites_manager.py`, `modules/core/site_models.py`).
-/

namespace OSINT

/-! ### String helpers (Python `str.lower`, substring `in`, `int`, `strip`)

Python's `str.lower` is modelled by ASCII case folding (`lowChar`); the
catalog needles and the hardcoded indicator phrases only exercise ASCII
letters and characters that are already lowercase. Python's `needle in s`
is modelled as list-of-character infix search. -/

/-- ASCII case folding of one character, as Python `str.lower` acts on
ASCII input. -/
def lowChar (c : Char) : Char :=
  if 'A' ≤ c ∧ c ≤ 'Z' then Char.ofNat (c.toNat + 32) else c

/-- Lowercase a character list (model of Python `str.lower`). -/
def lowerL (l : List Char) : List Char := l.map lowChar

/-- Does the first list start the second one? -/
def isPref : List Char → List Char → Bool
  | [], _ => true
  | _ :: _, [] => false
  | a :: as, b :: bs => a == b && isPref as bs

/-- Model of Python `needle in haystack` on strings: `subOf n h` is true
iff `n` occurs contiguously inside `h`. -/
def subOf (needle hay : List Char) : Bool :=
  match hay with
  | [] => needle.isEmpty
  | _ :: t => isPref needle hay || subOf needle t

/-- Model of Python `int(s)` restricted to plain decimal digit strings
(the only shape `noResult.value` takes for `status_code` rules); other
strings fail, as `int` raises `ValueError`. -/
def parseDecAux : List Char → Nat → Option Nat
  | [], acc => some acc
  | c :: rest, acc =>
    if '0' ≤ c ∧ c ≤ '9' then parseDecAux rest (acc * 10 + (c.toNat - 48))
    else none

/-- See `parseDecAux`; the empty string raises in Python and is `none` here. -/
def pyInt (s : String) : Option Nat :=
  match s.data with
  | [] => none
  | l => parseDecAux l 0

/-- Python `s.strip(c)`: drop leading and trailing occurrences of `c`. -/
def stripChar (c : Char) (l : List Char) : List Char :=
  ((l.dropWhile (· == c)).reverse.dropWhile (· == c)).reverse

/-! ### Decision engine of the full-name scanner

`modules/full_name_scanner.py` lines 150-155 (`_check_site_basic`) and
216-221 (`_check_site_dynamic`) share this logic verbatim. -/

/-- The `noResult` rule of a site definition (`site_models.NoResult`). -/
structure NoResult where
  type : String
  value : String
deriving DecidableEq, Repr

/-- The per-attempt decision of `_check_site_basic`/`_check_site_dynamic`:
`contains` compares case-insensitively, `status_code` compares the status
against `int(value)` (`none` models the `ValueError` that `int` raises on
a non-numeric value, which the surrounding `except Exception` catches),
any other type falls back to 2xx success. -/
def decideNoResult (nr : NoResult) (status : Nat) (body : String) : Option Bool :=
  if nr.type = "contains" then
    some (!subOf (lowerL nr.value.data) (lowerL body.data))
  else if nr.type = "status_code" then
    (pyInt nr.value).map (fun v => status != v)
  else
    some (decide (200 ≤ status ∧ status < 300))

/-! ### Site definitions for the full-name category

Embedding of `site_models.Site` restricted to the fields the full-name
scanner and the catalog loader consult. `headers`, `tags`, `notes`,
`rateLimitPerMinute`, `lastVerified` and the extraction sub-models do not
influence any decision or control flow modelled here. -/

/-- A validated full-name site definition (`site_models.Site` as built by
`SitesManager._load_sites_data`, where `noResult` is always a single
rule). -/
structure FSite where
  id : String
  name : String
  homeUrl : Option String := none
  urlTemplate : String
  placeholders : List String := []
  urlEncode : Bool := false
  method : String := "GET"
  responseType : String := "html"
  requiresJs : Bool := false
  noResult : NoResult
  timeoutSeconds : Option Nat := none
  retries : Option Nat := none
  active : Bool := true
  advanced_placeholders : List String := []
deriving DecidableEq, Repr

/-- Per-site probe result dictionary
(`{"name": ..., "url": ..., "found": ..., "method": ...}`). -/
structure FOutcome where
  name : String
  url : String
  found : Bool
  method : String
deriving DecidableEq, Repr

/-! ### Retry loops of the two full-name probe strategies

`FullNameScanner._check_site_basic` (lines 135-173) and
`_check_site_dynamic` (lines 193-241). One loop iteration either yields
an HTTP/DOM response (status and body) or raises; the network exceptions
named in the `except` clauses are distinguished from any other
exception. URL formatting from the template is outside the model: the
resolved URL is an input. -/

/-- The observable result of one probe attempt: a response, a retryable
network exception (`asyncio.TimeoutError`/`ClientConnectorError`/
`ClientResponseError` for basic, `PlaywrightTimeoutError` for dynamic),
or any other exception. -/
inductive Attempt where
  | ok (status : Nat) (body : String)
  | netErr
  | otherErr
deriving DecidableEq, Repr

/-- One iteration of the basic check body: a response is decided by the
`noResult` rule (`none` when the decision itself raised, e.g. `int` on a
non-numeric value); exceptions map to their handler class. `some b` means
the iteration completed with `found = b`. -/
inductive StepRes where
  | done (found : Bool)
  | retryNet
  | retryOther
deriving DecidableEq, Repr

/-- Classify one attempt of `_check_site_basic`/`_check_site_dynamic`. -/
def probeStep (site : FSite) (a : Attempt) : StepRes :=
  match a with
  | .ok st body =>
    match decideNoResult site.noResult st body with
    | some b => .done b
    | none => .retryOther
  | .netErr => .retryNet
  | .otherErr => .retryOther

/-- The message of the `AttributeError` raised by `_check_site_basic`'s
return statement (full_name_scanner.py line 173): `site.method.value` on
the str-typed `method` field of `site_models.Site`. The raise sits
outside the loop's `try`, escapes the coroutine, and is captured by the
gathering scan as this error string. -/
def basicReturnError : String := "\x27str\x27 object has no attribute \x27value\x27"

/-- The `for attempt in range(retries + 1)` loop of `_check_site_basic`:
`found = True` breaks, `found = False` falls through to the next attempt,
a raise on the last attempt (`attempt == retries`) escapes as
`NetworkError`/`ScannerError`, earlier raises are swallowed. Whenever the
loop finishes without raising, the return statement itself raises
`AttributeError` (`site.method.value` on a str field, line 173), so a
completed basic probe surfaces an error, never an outcome dictionary.
Also returns the number of attempts performed. `fuel` is the number of
attempts still allowed after the current one. -/
def runBasicAux (site : FSite) (url : String) (att : Nat → Attempt) :
    Nat → Nat → Except String FOutcome × Nat
  | i, 0 =>
    match probeStep site (att i) with
    | .done _ => (.error basicReturnError, i + 1)
    | .retryNet => (.error ("Error checking basic site " ++ site.name), i + 1)
    | .retryOther => (.error ("Error checking basic site " ++ site.name), i + 1)
  | i, fuel + 1 =>
    match probeStep site (att i) with
    | .done true => (.error basicReturnError, i + 1)
    | _ => runBasicAux site url att (i + 1) fuel

/-- `FullNameScanner._check_site_basic` given the resolved URL and the
per-attempt behaviour; `retries = site.retries if site.retries is not
None else 0`. -/
def runBasic (site : FSite) (url : String) (att : Nat → Attempt) :
    Except String FOutcome × Nat :=
  runBasicAux site url att 0 (site.retries.getD 0)

/-- The identical loop of `_check_site_dynamic`; only the exception
messages and the reported method differ. -/
def runDynamicAux (site : FSite) (url : String) (att : Nat → Attempt) :
    Nat → Nat → Except String FOutcome × Nat
  | i, 0 =>
    match probeStep site (att i) with
    | .done b => (.ok ⟨site.name, url, b, "dynamic"⟩, i + 1)
    | .retryNet => (.error ("Timeout checking dynamic site " ++ site.name), i + 1)
    | .retryOther => (.error ("Error checking dynamic site " ++ site.name), i + 1)
  | i, fuel + 1 =>
    match probeStep site (att i) with
    | .done true => (.ok ⟨site.name, url, true, "dynamic"⟩, i + 1)
    | _ => runDynamicAux site url att (i + 1) fuel

/-- `FullNameScanner._check_site_dynamic` (same retry structure as the
basic check). -/
def runDynamic (site : FSite) (url : String) (att : Nat → Attempt) :
    Except String FOutcome × Nat :=
  runDynamicAux site url att 0 (site.retries.getD 0)

/-! ### Collection of probe results

`UsernameScanner.scan` lines 55-62 and `FullNameScanner.scan` lines
100-107: `asyncio.gather(..., return_exceptions=True)` hands back one
value per task, an exception (`Except.error`, carrying `str(e)`) or a
result dictionary; the loop turns exceptions into entries of
`results["errors"]` and `found` results into `results["found_on"]`. -/

/-- The accumulating part of a category scan result. -/
structure ScanAgg where
  found_on : List (String × String)
  errors : List String
deriving DecidableEq, Repr

/-- The collection loop over the gathered task results, preserving task
order exactly as the Python `for res in ...` append loop does. -/
def collectResults : List (Except String FOutcome) → ScanAgg
  | [] => ⟨[], []⟩
  | .error e :: rest =>
    let r := collectResults rest
    ⟨r.found_on, e :: r.errors⟩
  | .ok o :: rest =>
    let r := collectResults rest
    if o.found then ⟨(o.name, o.url) :: r.found_on, r.errors⟩ else r

/-! ### Username scanner decision logic

`UsernameScanner._process_response` (lines 151-190) and the decision part
of `_check_site_dynamic` (lines 229-262). The `errorType` and `checkType`
enums (`modules/enums.py`) have exactly the values modelled here. -/

/-- `ErrorTypes`: `status_code` or `string`. -/
inductive ErrTy where
  | status_code
  | string
deriving DecidableEq, Repr

/-- `CheckTypes`: `positive` or `negative`. -/
inductive ChkTy where
  | positive
  | negative
deriving DecidableEq, Repr

/-- `CheckMethods`: `basic` or `dynamic`. -/
inductive MethTy where
  | basic
  | dynamic
deriving DecidableEq, Repr

/-- `Site.errorString` — absent, a single string, or a list
(`Optional[Union[str, List[str]]]`). -/
inductive ErrStrField where
  | absent
  | one (s : String)
  | many (l : List String)
deriving DecidableEq, Repr

/-- A username site definition, restricted to the fields the username
scanner decision logic and task scheduling consult. -/
structure USite where
  name : String
  urlTemplate : String
  checkMethod : MethTy := .basic
  errorType : ErrTy := .status_code
  checkType : ChkTy := .negative
  errorString : ErrStrField := .absent
  successString : Option String := none
  active : Bool := true
deriving DecidableEq, Repr

/-- `UsernameScanner._get_error_list`: normalize `errorString` to a list. -/
def getErrorList (site : USite) : List String :=
  match site.errorString with
  | .absent => []
  | .one s => [s]
  | .many l => l

/-- The hardcoded indicator phrases of the `status_code` branch
(12 entries, `"doesn\x27t exist"` listed twice as in the source). -/
def errorIndicatorsLong : List String :=
  ["not found", "doesn\x27t exist", "user not found", "profile not found",
   "page not found", "404", "no such user", "could not find",
   "doesn\x27t exist", "not available", "unavailable", "broken link"]

/-- The hardcoded indicator phrases of the default/`string` branches
(8 entries). -/
def errorIndicatorsShort : List String :=
  ["not found", "doesn\x27t exist", "user not found", "profile not found",
   "page not found", "404", "no such user", "could not find"]

/-- `any(indicator in content.lower() for indicator in ...)` — the
indicator literals are written lowercase and are not lowered again. -/
def anyIndicator (inds : List String) (content : String) : Bool :=
  inds.any (fun ind => subOf ind.data (lowerL content.data))

/-- `any(err.lower() in content.lower() for err in error_list)`. -/
def anyErrString (errs : List String) (content : String) : Bool :=
  errs.any (fun e => subOf (lowerL e.data) (lowerL content.data))

/-- `UsernameScanner._process_response`: the branch on `errorType`
computes `found`, then `checkType == positive` inverts it. The Python
`else` branch on `errorType` is unreachable because the enum has exactly
the two values. -/
def processResponseFound (site : USite) (status : Nat) (content : String) : Bool :=
  let found :=
    match site.errorType with
    | .status_code =>
      if 200 ≤ status ∧ status < 300 then !anyIndicator errorIndicatorsLong content
      else false
    | .string =>
      decide (200 ≤ status ∧ status < 300) && !anyErrString (getErrorList site) content
  if site.checkType = .positive then !found else found

/-- Modelled from the spec: the primary `errorType` rule of
`_process_response` with the generic negative-phrase filter removed
(spec 4.3 calls the hardcoded indicator scan "a secondary filter layered
on top of the primary rule"); the site-specific `errorString` list and
the `checkType` inversion belong to the primary rule. Used to compare
the decision with and without the filter. -/
def processResponsePrimary (site : USite) (status : Nat) (content : String) : Bool :=
  let found :=
    match site.errorType with
    | .status_code => decide (200 ≤ status ∧ status < 300)
    | .string =>
      decide (200 ≤ status ∧ status < 300) && !anyErrString (getErrorList site) content
  if site.checkType = .positive then !found else found

/-- The decision part of `UsernameScanner._check_site_dynamic` (lines
229-262): a `positive` check looks only for `successString`; otherwise
`status_code` mirrors `_process_response` and the remaining (`string`)
branch combines the short indicator list with the site error strings. -/
def dynamicFoundU (site : USite) (status : Nat) (content : String) : Bool :=
  if site.checkType = .positive then
    subOf (lowerL (site.successString.getD "").data) (lowerL content.data)
  else
    match site.errorType with
    | .status_code =>
      if 200 ≤ status ∧ status < 300 then !anyIndicator errorIndicatorsLong content
      else false
    | .string =>
      if 200 ≤ status ∧ status < 300 then
        !anyIndicator errorIndicatorsShort content
          && !anyErrString (getErrorList site) content
      else false

/-- Modelled from the spec: `dynamicFoundU` with the generic
negative-phrase filter removed (the `successString` path of a positive
check never consults the filter). -/
def dynamicPrimaryU (site : USite) (status : Nat) (content : String) : Bool :=
  if site.checkType = .positive then
    subOf (lowerL (site.successString.getD "").data) (lowerL content.data)
  else
    match site.errorType with
    | .status_code => decide (200 ≤ status ∧ status < 300)
    | .string =>
      if 200 ≤ status ∧ status < 300 then
        !anyErrString (getErrorList site) content
      else false

/-! ### Task scheduling

`UsernameScanner.scan` lines 35-53: sites are split by `checkMethod`
only, dynamic tasks are appended first; the `active` flag is not
consulted. `FullNameScanner.scan` lines 59-98: inactive sites are
skipped, active sites contribute one task (first/last placeholders) or
one task per name variation, on the strategy matching `requiresJs`
(dynamic only when a browser context exists). -/

/-- The sites for which `UsernameScanner.scan` schedules a probe task,
in scheduling order. -/
def usernameScheduled (sites : List USite) : List USite :=
  sites.filter (fun s => s.checkMethod = .dynamic)
    ++ sites.filter (fun s => s.checkMethod = .basic)

/-- The keyword arguments of one full-name scan invocation. -/
structure FNParams where
  full_name : String := ""
  first_name : String := ""
  middle_name : String := ""
  last_name : String := ""
  aliases : List String := []
  advanced_search : Bool := false
  city : String := ""
deriving DecidableEq, Repr

/-- A scheduled full-name probe task: target site, strategy, and the
query parameters passed to the URL template. -/
structure FNTask where
  siteId : String
  meth : MethTy
  params : List (String × String)
deriving DecidableEq, Repr

/-- The name variations probed when a site has no first/last
placeholders (full name, first+last, and every alias). -/
def fnameVariations (p : FNParams) : List String :=
  (if p.middle_name ≠ "" then
      [p.first_name ++ " " ++ p.middle_name ++ " " ++ p.last_name,
       p.first_name ++ " " ++ p.last_name]
    else [p.full_name])
    ++ p.aliases

/-- The probe tasks `FullNameScanner.scan` schedules for one site
(`hasContext`: a browser context was opened). -/
def fnTasksForSite (p : FNParams) (hasContext : Bool) (site : FSite) : List FNTask :=
  if site.active then
    if site.placeholders.contains "first" && site.placeholders.contains "last" then
      let qp := [("first", p.first_name), ("last", p.last_name)]
        ++ (if p.advanced_search && site.advanced_placeholders.contains "city"
              && p.city ≠ "" then [("city", p.city)] else [])
      if !site.requiresJs then [⟨site.id, .basic, qp⟩]
      else if site.requiresJs && hasContext then [⟨site.id, .dynamic, qp⟩]
      else []
    else
      (fnameVariations p).filterMap (fun nm =>
        if !site.requiresJs then some ⟨site.id, .basic, [("query", nm)]⟩
        else if site.requiresJs && hasContext then some ⟨site.id, .dynamic, [("query", nm)]⟩
        else none)
  else []

/-- All tasks of one full-name category scan, in scheduling order. -/
def fnScheduledTasks (p : FNParams) (hasContext : Bool) (sites : List FSite) :
    List FNTask :=
  (sites.map (fnTasksForSite p hasContext)).flatten

/-! ### Raw JSON documents

A small JSON value type for the raw catalog documents. Objects are
association lists with distinct keys (duplicate JSON keys are not
modelled). -/

/-- A JSON value. -/
inductive J where
  | null
  | bool (b : Bool)
  | num (n : Int)
  | str (s : String)
  | arr (xs : List J)
  | obj (fields : List (String × J))

/-- Python `d[k]` / `d.get(k)` on an object's fields. -/
def jLookup (fields : List (String × J)) (k : String) : Option J :=
  match fields with
  | [] => none
  | (k', v) :: rest => if k' = k then some v else jLookup rest k

/-- Python `d[k] = v`: replace an existing binding or append a new one. -/
def jSet (fields : List (String × J)) (k : String) (v : J) : List (String × J) :=
  match fields with
  | [] => [(k, v)]
  | (k', v') :: rest => if k' = k then (k, v) :: rest else (k', v') :: jSet rest k v

/-! ### Full-name catalog loading

`SitesManager._load_sites_data` lines 39-96: each site record is built
with explicit keyword arguments, so a missing key raises `KeyError` and
an unpacking of a non-mapping raises `TypeError` — both are caught per
record and the record is dropped (lines 83-88). Any other exception
(notably a pydantic `ValidationError` from a wrong-typed field, which is
a `ValueError`) escapes to the outer `except Exception` (lines 94-96),
which resets the whole in-memory full-name catalog to `[]`. Pydantic's
lax coercions of exotic inputs (e.g. ints to bools) and the validation of
`headers`/`tags`/`notes`/`rateLimitPerMinute`/`lastVerified` and of the
inner fields of the optional sub-models are not modelled. -/

/-- How the construction of one site record fails. -/
inductive ParseFail where
  | keyErr
  | typeErr
  | otherErr
deriving DecidableEq, Repr

/-- `site_info[k]`: missing key raises `KeyError`. -/
def reqKey (fields : List (String × J)) (k : String) : Except ParseFail J :=
  match jLookup fields k with
  | some v => .ok v
  | none => .error .keyErr

/-- Pydantic validation of a required `str` field (`ValidationError`
otherwise). -/
def pyStr (v : J) : Except ParseFail String :=
  match v with
  | .str s => .ok s
  | _ => .error .otherErr

/-- Pydantic validation of an `Optional[str]` field. -/
def pyOptStr (v : J) : Except ParseFail (Option String) :=
  match v with
  | .null => .ok none
  | .str s => .ok (some s)
  | _ => .error .otherErr

/-- Pydantic validation of a `bool` field. -/
def pyBool (v : J) : Except ParseFail Bool :=
  match v with
  | .bool b => .ok b
  | _ => .error .otherErr

/-- Pydantic validation of the elements of a `List[str]` field. -/
def pyStrListAux : List J → Except ParseFail (List String)
  | [] => .ok []
  | .str s :: rest => (pyStrListAux rest).map (s :: ·)
  | _ :: _ => .error .otherErr

/-- Pydantic validation of a `List[str]` field. -/
def pyStrList (v : J) : Except ParseFail (List String) :=
  match v with
  | .arr xs => pyStrListAux xs
  | _ => .error .otherErr

/-- `site_info.get(k)` for an `Optional[int]` field; negative values do
not occur in the catalogs and are outside the model. -/
def pyOptNatField (fields : List (String × J)) (k : String) :
    Except ParseFail (Option Nat) :=
  match jLookup fields k with
  | none => .ok none
  | some .null => .ok none
  | some (.num n) => if 0 ≤ n then .ok (some n.toNat) else .error .otherErr
  | some _ => .error .otherErr

/-- `NoResult(**site_info["noResult"])` once the key exists: unpacking a
non-mapping raises `TypeError`; a missing or wrong-typed `type`/`value`
is a pydantic `ValidationError`. -/
def parseNoResultJ (v : J) : Except ParseFail NoResult :=
  match v with
  | .obj nf =>
    match jLookup nf "type", jLookup nf "value" with
    | some (.str t), some (.str w) => .ok ⟨t, w⟩
    | _, _ => .error .otherErr
  | _ => .error .typeErr

/-- `Model(**site_info[k])` for the optional `resultMatcher`/`pagination`/
`legal` blocks: only the non-mapping `TypeError` is modelled, the inner
pydantic validation is treated as accepting. -/
def optSubModel (fields : List (String × J)) (k : String) : Except ParseFail Unit :=
  match jLookup fields k with
  | none => .ok ()
  | some (.obj _) => .ok ()
  | some _ => .error .typeErr

/-- Each value of `extract["fields"]` is unpacked into `FieldExtraction`;
a non-mapping value raises `TypeError`. -/
def checkObjVals : List (String × J) → Except ParseFail Unit
  | [] => .ok ()
  | (_, .obj _) :: rest => checkObjVals rest
  | (_, _) :: _ => .error .typeErr

/-- The `extract` block (lines 51-53): the `fields` comprehension runs
first, and its `site_info["extract"].get("fields", {})` raises
`AttributeError` (other, uncaught by the per-record handlers) when the
`extract` value is not a mapping, as does `.items()` on a non-mapping
`fields` value; inside the comprehension, unpacking a non-mapping field
value raises `TypeError`. Then the missing `recordsSelector` key raises
`KeyError` and a wrong-typed `recordsSelector` is a `ValidationError`. -/
def optExtractBlock (fields : List (String × J)) : Except ParseFail Unit := do
  match jLookup fields "extract" with
  | none => return ()
  | some (.obj ef) =>
    match jLookup ef "fields" with
    | none => pure ()
    | some (.obj fl) => checkObjVals fl
    | some _ => throw .otherErr
    match jLookup ef "recordsSelector" with
    | none => throw .keyErr
    | some .null => pure ()
    | some (.str _) => pure ()
    | some _ => throw .otherErr
  | some _ => throw .otherErr

/-- Construction of one full-name site record (`_load_sites_data` lines
47-81): the sub-model blocks in source order, then the required-key
subscripts in argument order, then the pydantic field validation of
`Site`. -/
def parseSiteInfo (x : J) : Except ParseFail FSite := do
  let fields ← match x with
    | .obj f => Except.ok f
    | .str _ => Except.error ParseFail.typeErr
    | .arr _ => Except.error ParseFail.typeErr
    | _ => Except.error ParseFail.typeErr
  let nrJ ← reqKey fields "noResult"
  let nr ← parseNoResultJ nrJ
  optSubModel fields "resultMatcher"
  optExtractBlock fields
  optSubModel fields "pagination"
  optSubModel fields "legal"
  let idJ ← reqKey fields "id"
  let nameJ ← reqKey fields "name"
  let homeJ ← reqKey fields "homeUrl"
  let urlTJ ← reqKey fields "urlTemplate"
  let phJ ← reqKey fields "placeholders"
  let ueJ ← reqKey fields "urlEncode"
  let methJ ← reqKey fields "method"
  let respJ ← reqKey fields "responseType"
  let rjJ ← reqKey fields "requiresJs"
  let idv ← pyStr idJ
  let namev ← pyStr nameJ
  let homev ← pyOptStr homeJ
  let urlTv ← pyStr urlTJ
  let phv ← pyStrList phJ
  let uev ← pyBool ueJ
  let methv ← pyStr methJ
  let respv ← pyStr respJ
  let rjv ← pyBool rjJ
  let tov ← pyOptNatField fields "timeoutSeconds"
  let rev ← pyOptNatField fields "retries"
  let actv ← match jLookup fields "active" with
    | none => Except.ok true
    | some v => pyBool v
  let advv ← match jLookup fields "advanced_placeholders" with
    | none => Except.ok ([] : List String)
    | some v => pyStrList v
  return { id := idv, name := namev, homeUrl := homev, urlTemplate := urlTv,
           placeholders := phv, urlEncode := uev, method := methv,
           responseType := respv, requiresJs := rjv, noResult := nr,
           timeoutSeconds := tov, retries := rev, active := actv,
           advanced_placeholders := advv }

/-- The per-site loop (lines 46-88): `KeyError`/`TypeError` drop the
record and `continue`; any other exception escapes the loop. -/
def parseSitesList : List J → Except Unit (List FSite)
  | [] => .ok []
  | x :: rest =>
    match parseSiteInfo x with
    | .ok s => (parseSitesList rest).map (s :: ·)
    | .error .keyErr => parseSitesList rest
    | .error .typeErr => parseSitesList rest
    | .error .otherErr => .error ()

/-- A validated country group (`site_models.CountrySites`). -/
structure CountrySitesR where
  country : String
  country_code : Option String := none
  sites : List FSite
deriving DecidableEq, Repr

/-- One `country_data` entry (lines 44-89): `.get("sites", [])` on a
non-mapping raises uncaught; iterating a string or a mapping yields
strings, each of which fails the per-record subscript with `TypeError`
and is dropped; `country_data["country"]` and the `CountrySites`
validation raise uncaught on a missing or wrong-typed value. -/
def parseCountryData (c : J) : Except Unit CountrySitesR := do
  let cf ← match c with
    | .obj f => Except.ok f
    | _ => Except.error ()
  let sites ← match (jLookup cf "sites").getD (.arr []) with
    | .arr l => parseSitesList l
    | .str _ => Except.ok []
    | .obj _ => Except.ok []
    | _ => Except.error ()
  let country ← match jLookup cf "country" with
    | some (.str s) => Except.ok s
    | _ => Except.error ()
  let cc ← match jLookup cf "country_code" with
    | none => Except.ok none
    | some .null => Except.ok none
    | some (.str s) => Except.ok (some s)
    | some _ => Except.error ()
  return { country := country, country_code := cc, sites := sites }

/-- The country loop. -/
def parseCountryList : List J → Except Unit (List CountrySitesR)
  | [] => .ok []
  | c :: rest => do
    let r ← parseCountryData c
    let rs ← parseCountryList rest
    return r :: rs

/-- Loading the full-name document (lines 41-96): a non-list document
leaves `parsed_data` empty; an uncaught exception anywhere resets the
catalog to `[]` via the outer `except Exception`. -/
def parseFullNameData (raw : J) : List CountrySitesR :=
  match raw with
  | .arr cs =>
    match parseCountryList cs with
    | .ok l => l
    | .error _ => []
  | _ => []

/-- `Except.ok` projection used to collect the successfully validated
records. -/
def exOk {ε α : Type} : Except ε α → Option α
  | .ok a => some a
  | .error _ => none

/-- Did the record construction fail with an exception the per-site
handler does not catch? -/
def isOtherErr (r : Except ParseFail FSite) : Bool :=
  match r with
  | .error .otherErr => true
  | _ => false

/-! ### Catalog refresh from a remote URL

`SitesManager.update_sites_json_from_url` (lines 166-184) and
`update_full_name_sites_json_from_url` (lines 186-204): fetch the
document, write it to the local file, then `json.loads` it and replace
the in-memory data; `aiohttp.ClientError` and any other exception yield
`False`. The fetch and `json.loads` are inputs of the model (network and
a JSON parser cannot be embedded); a fetch failure models the exceptions
raised by the request or `raise_for_status`, and a parse result of
`none` models a `json.JSONDecodeError`. -/

/-- The state touched by a refresh: the two in-memory catalogs (held as
the raw values the code assigns) and the two persisted files. -/
structure CatalogState where
  usernameSitesData : J
  fullNameSitesData : J
  sitesFile : Option String
  fullNameFile : Option String

/-- `update_sites_json_from_url`: on a successful fetch the raw text is
written to `sites.json` before `json.loads` runs; the in-memory username
catalog becomes `json.loads(content).get("username_sites", [])` only
when parsing succeeds and yields a mapping (`.get` on a non-mapping
raises `AttributeError`, caught by `except Exception`). -/
def updateSitesJsonFromUrl (st : CatalogState) (fetch : Except Unit String)
    (jsonLoads : String → Option J) : CatalogState × Bool :=
  match fetch with
  | .error _ => (st, false)
  | .ok content =>
    let st1 := { st with sitesFile := some content }
    match jsonLoads content with
    | none => (st1, false)
    | some (.obj fields) =>
      ({ st1 with usernameSitesData := (jLookup fields "username_sites").getD (.arr []) },
       true)
    | some _ => (st1, false)

/-- `update_full_name_sites_json_from_url`: same shape; the in-memory
full-name data is assigned the parsed document itself. -/
def updateFullNameSitesJsonFromUrl (st : CatalogState) (fetch : Except Unit String)
    (jsonLoads : String → Option J) : CatalogState × Bool :=
  match fetch with
  | .error _ => (st, false)
  | .ok content =>
    let st1 := { st with fullNameFile := some content }
    match jsonLoads content with
    | none => (st1, false)
    | some v => ({ st1 with fullNameSitesData := v }, true)

/-! ### Legacy username record normalization

`Site._coerce_legacy_username_schema` (`site_models.py` lines 105-177)
runs as a pydantic before-validator; `siteModelValidate` then applies the
pydantic field validation of the modelled fields (`id`, `name`,
`urlTemplate` are required). Python's Unicode `str.isalnum` is modelled
as ASCII alphanumeric, and `urlparse` as the scheme/netloc split of an
absolute URL. -/

/-- The scheme/netloc inference of lines 127-133: `urlparse` on an
absolute URL, keeping `homeUrl = scheme://netloc` when both parts are
nonempty. -/
def splitScheme : List Char → Option (List Char × List Char)
  | [] => none
  | c :: rest =>
    if isPref [':', '/', '/'] (c :: rest) then some ([], rest.drop 2)
    else (splitScheme rest).map (fun p => (c :: p.1, p.2))

/-- `homeUrl` inference from a URL template (lines 127-133). -/
def inferHomeUrl (t : String) : Option String :=
  match splitScheme t.data with
  | none => none
  | some (scheme, rest) =>
    let netloc := rest.takeWhile (fun c => c ≠ '/' ∧ c ≠ '?' ∧ c ≠ '#')
    if scheme ≠ [] ∧ netloc ≠ [] then
      some (String.mk scheme ++ "://" ++ String.mk netloc)
    else none

/-- The slug of lines 136-137: lowercase alphanumerics, every other
character replaced by an underscore, then `strip("_")`. -/
def slugify (s : String) : String :=
  String.mk (stripChar '_'
    (s.data.map (fun c => if c.isAlphanum then lowChar c else '_')))

/-- Modelled from the spec claim's wording: the slug described as
"non-alphanumeric characters replaced by underscores, lowercased",
without stripping leading or trailing underscores. Kept to compare the
claim's description with the source's `slugify`. -/
def claimSlug (s : String) : String :=
  String.mk (s.data.map (fun c => if c.isAlphanum then lowChar c else '_'))

/-- The brace scan of lines 144-157 collecting `{name}` placeholders. -/
def braceScan : List Char → List Char → Bool → List String
  | [], _, _ => []
  | c :: rest, cur, inB =>
    if c = '\x7b' then braceScan rest [] true
    else if c = '\x7d' then
      (if inB ∧ cur ≠ [] then [String.mk cur] else []) ++ braceScan rest cur false
    else if inB then braceScan rest (cur ++ [c]) true
    else braceScan rest cur false

/-- The default placeholders of lines 139-157: a bare `{}` implies a
single `username` placeholder, otherwise the named placeholders of the
template (or `username` when there are none). -/
def derivePlaceholders (t : String) : List String :=
  if subOf ['\x7b', '\x7d'] t.data then ["username"]
  else
    let names := braceScan t.data [] false
    if names = [] then ["username"] else names

/-- `Site._coerce_legacy_username_schema` on a raw record: map `url` to
`urlTemplate`, infer `homeUrl`, generate a `_legacy` id from the name,
derive `placeholders`, derive `requiresJs` from `checkMethod`
(`str(...).lower() == "dynamic"`), default `urlEncode`, `method` and
`responseType`, and turn an empty `resultMatcher` mapping into null. -/
def coerceFields (f0 : List (String × J)) : List (String × J) :=
    let f1 :=
      match jLookup f0 "urlTemplate", jLookup f0 "url" with
      | none, some (.str u) => jSet f0 "urlTemplate" (.str u)
      | _, _ => f0
    let f2 :=
      match jLookup f1 "homeUrl", jLookup f1 "urlTemplate" with
      | none, some (.str t) =>
        match inferHomeUrl t with
        | some h => jSet f1 "homeUrl" (.str h)
        | none => f1
      | _, _ => f1
    let f3 :=
      match jLookup f2 "id", jLookup f2 "name" with
      | none, some (.str n) => jSet f2 "id" (.str (slugify n ++ "_legacy"))
      | _, _ => f2
    let f4 :=
      match jLookup f3 "placeholders", jLookup f3 "urlTemplate" with
      | none, some (.str t) =>
        jSet f3 "placeholders" (.arr ((derivePlaceholders t).map .str))
      | _, _ => f3
    let f5 :=
      match jLookup f4 "requiresJs", jLookup f4 "checkMethod" with
      | none, some v =>
        let requires :=
          match v with
          | .str s => lowerL s.data = "dynamic".data
          | _ => false
        jSet f4 "requiresJs" (.bool requires)
      | _, _ => f4
    let f6 :=
      match jLookup f5 "urlEncode" with
      | none => jSet f5 "urlEncode" (.bool false)
      | some _ => f5
    let f7 :=
      match jLookup f6 "method" with
      | none => jSet f6 "method" (.str "GET")
      | some _ => f6
    let f8 :=
      match jLookup f7 "responseType" with
      | none => jSet f7 "responseType" (.str "html")
      | some _ => f7
    let f9 :=
      match jLookup f8 "resultMatcher" with
      | some (.obj []) => jSet f8 "resultMatcher" .null
      | _ => f8
    f9

/-- See `coerceFields`; non-mapping data is returned unchanged. -/
def coerceLegacy (data : J) : J :=
  match data with
  | .obj f0 => .obj (coerceFields f0)
  | _ => data

/-- The validated username site record, restricted to the fields whose
pydantic validation is modelled. -/
structure USiteRec where
  id : String
  name : String
  urlTemplate : String
  homeUrl : Option String := none
  placeholders : List String := []
  urlEncode : Bool := false
  method : String := "GET"
  responseType : String := "html"
  requiresJs : Bool := false
deriving DecidableEq, Repr

/-- `Site.model_validate` on a raw username record: run the legacy
coercion, then require `id`, `name` and `urlTemplate` as strings and
validate the typed optional fields modelled here, with the pydantic
defaults of `site_models.Site` for absent ones. -/
def siteModelValidate (data : J) : Option USiteRec :=
  match coerceLegacy data with
  | .obj f =>
    match jLookup f "id", jLookup f "name", jLookup f "urlTemplate" with
    | some (.str i), some (.str n), some (.str t) =>
      let homev : Except ParseFail (Option String) :=
        match jLookup f "homeUrl" with
        | none => .ok none
        | some v => pyOptStr v
      let phv : Except ParseFail (List String) :=
        match jLookup f "placeholders" with
        | none => .ok []
        | some v => pyStrList v
      let uev : Except ParseFail Bool :=
        match jLookup f "urlEncode" with
        | none => .ok false
        | some v => pyBool v
      let methv : Except ParseFail String :=
        match jLookup f "method" with
        | none => .ok "GET"
        | some v => pyStr v
      let respv : Except ParseFail String :=
        match jLookup f "responseType" with
        | none => .ok "html"
        | some v => pyStr v
      let rjv : Except ParseFail Bool :=
        match jLookup f "requiresJs" with
        | none => .ok false
        | some v => pyBool v
      match homev, phv, uev, methv, respv, rjv with
      | .ok h, .ok ph, .ok ue, .ok me, .ok re, .ok rj =>
        some { id := i, name := n, urlTemplate := t, homeUrl := h,
               placeholders := ph, urlEncode := ue, method := me,
               responseType := re, requiresJs := rj }
      | _, _, _, _, _, _ => none
    | _, _, _ => none
  | _ => none

/-! ### Concrete values for the scenario instances -/

/-- The Ratsit entry of the default full-name catalog
(`_create_default_full_name_sites_json`). -/
def ratsitSite : FSite :=
  { id := "ratsit_v1", name := "Ratsit",
    homeUrl := some "https://www.ratsit.se",
    urlTemplate := "https://www.ratsit.se/sok/person?who=\x7bquery\x7d",
    placeholders := ["query"], urlEncode := true,
    noResult := ⟨"contains", "Inga träffar"⟩,
    timeoutSeconds := some 10, retries := some 2 }

/-- A full-name site probed by the dynamic strategy, with one retry. -/
def dynSite : FSite :=
  { id := "dyn_v1", name := "DynSite",
    urlTemplate := "https://people.example/search?q=\x7bquery\x7d",
    placeholders := ["query"], requiresJs := true,
    noResult := ⟨"contains", "No results"⟩, retries := some 1 }

/-- A full-name site with a `status_code` rule of value 404. -/
def sc404Site : FSite :=
  { id := "sc404", name := "Sc404",
    urlTemplate := "https://registry.example/p/\x7bquery\x7d",
    placeholders := ["query"], noResult := ⟨"status_code", "404"⟩ }

/-- An inactive full-name site. -/
def inactiveFSite : FSite :=
  { id := "off_v1", name := "OffSite",
    urlTemplate := "https://off.example/\x7bquery\x7d",
    placeholders := ["query"], noResult := ⟨"contains", "nothing"⟩,
    active := false }

/-- A username site whose `status_code` rule is a positive check. -/
def posUSite : USite :=
  { name := "PosSite", urlTemplate := "https://pos.example/\x7busername\x7d",
    errorType := .status_code, checkType := .positive }

/-- A username site with a site-specific error string. -/
def strUSite : USite :=
  { name := "StrSite", urlTemplate := "https://str.example/\x7busername\x7d",
    errorType := .string, errorString := .one "no user" }

/-- An inactive basic username site. -/
def inactiveUSite : USite :=
  { name := "OffUser", urlTemplate := "https://offuser.example/\x7busername\x7d",
    checkMethod := .basic, active := false }

/-- A catalog state with empty in-memory data and no persisted files. -/
def emptyCatalog : CatalogState :=
  { usernameSitesData := .arr [], fullNameSitesData := .arr [],
    sitesFile := none, fullNameFile := none }

/-- A structurally valid raw full-name record. -/
def goodRec (idv : String) : J :=
  .obj [("id", .str idv), ("name", .str idv),
        ("homeUrl", .str "https://people.example"),
        ("urlTemplate", .str "https://people.example/search?q=\x7bquery\x7d"),
        ("placeholders", .arr [.str "query"]), ("urlEncode", .bool true),
        ("method", .str "GET"), ("responseType", .str "html"),
        ("requiresJs", .bool false),
        ("noResult", .obj [("type", .str "contains"), ("value", .str "No results")])]

/-- The `FSite` that `goodRec` validates to. -/
def goodRecSite (idv : String) : FSite :=
  { id := idv, name := idv, homeUrl := some "https://people.example",
    urlTemplate := "https://people.example/search?q=\x7bquery\x7d",
    placeholders := ["query"], urlEncode := true,
    noResult := ⟨"contains", "No results"⟩ }

/-- A raw record missing the required `urlTemplate` key. -/
def noUrlTemplateRec : J :=
  .obj [("id", .str "bad1"), ("name", .str "Bad One"),
        ("homeUrl", .str "https://bad.example"),
        ("placeholders", .arr [.str "query"]), ("urlEncode", .bool false),
        ("method", .str "GET"), ("responseType", .str "html"),
        ("requiresJs", .bool false),
        ("noResult", .obj [("type", .str "contains"), ("value", .str "nothing")])]

/-- A raw record whose `id` has the wrong type (an int where pydantic
requires a string). -/
def wrongTypedRec : J :=
  .obj [("id", .num 5), ("name", .str "Bad Two"),
        ("homeUrl", .str "https://badtwo.example"),
        ("urlTemplate", .str "https://badtwo.example/search?q=\x7bquery\x7d"),
        ("placeholders", .arr [.str "query"]), ("urlEncode", .bool false),
        ("method", .str "GET"), ("responseType", .str "html"),
        ("requiresJs", .bool false),
        ("noResult", .obj [("type", .str "contains"), ("value", .str "nothing")])]

/-- A full-name document with one wrong-typed record among three. -/
def mixedTypedDoc : J :=
  .arr [.obj [("country", .str "Testland"),
              ("sites", .arr [goodRec "a", wrongTypedRec, goodRec "b"])]]

/-- A legacy username record carrying only a `url`. -/
def legacyOnlyUrlRec : J :=
  .obj [("url", .str "https://legacy.example/u/\x7busername\x7d")]

/-- A legacy username record with a name whose slug ends in an
underscore before stripping. -/
def legacyNamedRec : J :=
  .obj [("name", .str "My Site!"),
        ("url", .str "https://legacy.example/\x7b\x7d")]

/-! ### Helper lemmas -/

/-- `isPref` decides the prefix relation. -/
theorem isPref_iff (a b : List Char) : isPref a b = true ↔ a <+: b := by
  induction a generalizing b with
  | nil => simp [isPref]
  | cons x xs ih =>
    cases b with
    | nil => simp [isPref]
    | cons y ys => simp [isPref, ih, List.cons_prefix_cons]

/-- `subOf` decides the substring (contiguous sublist) relation, so the
Python `in` test is exactly occurrence as an infix. -/
theorem subOf_iff (n h : List Char) : subOf n h = true ↔ n <:+: h := by
  induction h with
  | nil => simp [subOf, List.isEmpty_iff]
  | cons c t ih =>
    rw [subOf]
    simp [isPref_iff, ih, List.infix_cons_iff]

/-- `collectResults` distributes over list append componentwise. -/
theorem collectResults_append (xs ys : List (Except String FOutcome)) :
    (collectResults (xs ++ ys)).found_on
        = (collectResults xs).found_on ++ (collectResults ys).found_on ∧
      (collectResults (xs ++ ys)).errors
        = (collectResults xs).errors ++ (collectResults ys).errors := by
  induction xs with
  | nil => simp [collectResults]
  | cons x rest ih =>
    cases x with
    | error e => simp [collectResults, ih]
    | ok o => by_cases hf : o.found <;> simp [collectResults, hf, ih]

/-- When every attempt hits the retryable handler, the basic loop uses
all its fuel and raises on the last attempt. -/
theorem runBasicAux_net (site : FSite) (url : String) (att : Nat → Attempt)
    (h : ∀ j, probeStep site (att j) = .retryNet) :
    ∀ fuel i, runBasicAux site url att i fuel
      = (.error ("Error checking basic site " ++ site.name), i + fuel + 1) := by
  intro fuel
  induction fuel with
  | zero => intro i; simp [runBasicAux, h]
  | succ m ih =>
    intro i
    have := ih (i + 1)
    simp only [runBasicAux, h]
    rw [this]
    congr 1
    omega

/-- When every attempt hits the retryable handler, the dynamic loop uses
all its fuel and raises on the last attempt. -/
theorem runDynamicAux_net (site : FSite) (url : String) (att : Nat → Attempt)
    (h : ∀ j, probeStep site (att j) = .retryNet) :
    ∀ fuel i, runDynamicAux site url att i fuel
      = (.error ("Timeout checking dynamic site " ++ site.name), i + fuel + 1) := by
  intro fuel
  induction fuel with
  | zero => intro i; simp [runDynamicAux, h]
  | succ m ih =>
    intro i
    have := ih (i + 1)
    simp only [runDynamicAux, h]
    rw [this]
    congr 1
    omega

/-- When every attempt completes with `found = False`, the basic loop
keeps retrying, uses all its fuel, and then the return statement raises
the `AttributeError` of line 173. -/
theorem runBasicAux_notFound (site : FSite) (url : String) (att : Nat → Attempt)
    (h : ∀ j, probeStep site (att j) = .done false) :
    ∀ fuel i, runBasicAux site url att i fuel
      = (.error basicReturnError, i + fuel + 1) := by
  intro fuel
  induction fuel with
  | zero => intro i; simp [runBasicAux, h]
  | succ m ih =>
    intro i
    have := ih (i + 1)
    simp only [runBasicAux, h]
    rw [this]
    congr 1
    omega

/-- When every attempt completes with `found = False`, the dynamic loop
behaves exactly like the basic one. -/
theorem runDynamicAux_notFound (site : FSite) (url : String) (att : Nat → Attempt)
    (h : ∀ j, probeStep site (att j) = .done false) :
    ∀ fuel i, runDynamicAux site url att i fuel
      = (.ok ⟨site.name, url, false, "dynamic"⟩, i + fuel + 1) := by
  intro fuel
  induction fuel with
  | zero => intro i; simp [runDynamicAux, h]
  | succ m ih =>
    intro i
    have := ih (i + 1)
    simp only [runDynamicAux, h]
    rw [this]
    congr 1
    omega

/-! ### C1 -/

/-- C1: for a `contains` rule with needle N, the decision logic of both
full-name probe strategies returns `found = true`, for every HTTP status
and body, exactly when N does not occur in the body under
case-insensitive comparison. -/
theorem C1_contains_rule (nr : NoResult) (st : Nat) (body : String)
    (h : nr.type = "contains") :
    decideNoResult nr st body = some true ↔
      ¬ lowerL nr.value.data <:+: lowerL body.data := by
  rw [← subOf_iff]
  simp [decideNoResult, h]

/-- Witness for C1: the spec's Ratsit needle against a body without it
(any casing) yields `found = true`. -/
theorem C1_contains_rule_witness :
    decideNoResult ⟨"contains", "Inga träffar"⟩ 200 "Vi hittade 3 personer"
      = some true :=
  (C1_contains_rule ⟨"contains", "Inga träffar"⟩ 200 "Vi hittade 3 personer"
    rfl).mpr (by decide)

/-! ### C2 -/

/-- C2: for a `status_code` rule whose value reads as the number V, the
decision logic returns `found = true`, for every body, exactly when the
observed status differs from V. -/
theorem C2_status_code_rule (nr : NoResult) (st : Nat) (body : String) (v : Nat)
    (h : nr.type = "status_code") (hv : pyInt nr.value = some v) :
    decideNoResult nr st body = some true ↔ st ≠ v := by
  have hne : nr.type ≠ "contains" := by rw [h]; decide
  simp [decideNoResult, hne, h, hv]

/-- Witness for C2: value 404 with status 200 gives `found = true`, and
with status 404 gives `found = false`. -/
theorem C2_status_code_rule_witness :
    decideNoResult ⟨"status_code", "404"⟩ 200 "page" = some true ∧
      decideNoResult ⟨"status_code", "404"⟩ 404 "page" = some false :=
  ⟨(C2_status_code_rule ⟨"status_code", "404"⟩ 200 "page" 404 rfl
      (by decide)).mpr (by decide),
   by decide⟩

/-! ### C3 -/

/-- C3: a probe task that raises contributes exactly its message to the
errors list of the scan result, and the found entries recorded for the
remaining tasks are exactly those that would be recorded without it —
the exception is never propagated (the collection is total). -/
theorem C3_error_isolation (pre post : List (Except String FOutcome)) (e : String) :
    (collectResults (pre ++ .error e :: post)).errors
        = (collectResults pre).errors ++ e :: (collectResults post).errors ∧
      (collectResults (pre ++ .error e :: post)).found_on
        = (collectResults (pre ++ post)).found_on := by
  have h1 := collectResults_append pre (.error e :: post)
  have h2 := collectResults_append pre post
  constructor
  · rw [h1.2]
    simp [collectResults]
  · rw [h1.1, h2.1]
    simp [collectResults]

/-! ### C4 -/

/-- Counterexample to C4: a fetch that succeeds with an unparsable
document persists the raw text to the local file even though the refresh
fails — the claim says persistence happens only when fetch and parse
both succeed. -/
theorem C4_counterexample :
    (updateSitesJsonFromUrl emptyCatalog (.ok "not json") (fun _ => none)).1.sitesFile
        = some "not json" ∧
      (updateSitesJsonFromUrl emptyCatalog (.ok "not json") (fun _ => none)).2
        = false :=
  ⟨rfl, rfl⟩

/-- C4 (amended): on any failing refresh the in-memory catalog is left
exactly as it was and `false` is returned, and a failed fetch leaves the
whole state untouched; but the raw document is persisted whenever the
fetch succeeds, even if the parse then fails. -/
theorem C4_amended (st : CatalogState) (fetch : Except Unit String)
    (p : String → Option J) :
    ((updateSitesJsonFromUrl st fetch p).2 = false →
        (updateSitesJsonFromUrl st fetch p).1.usernameSitesData
          = st.usernameSitesData) ∧
      ((updateFullNameSitesJsonFromUrl st fetch p).2 = false →
        (updateFullNameSitesJsonFromUrl st fetch p).1.fullNameSitesData
          = st.fullNameSitesData) ∧
      (fetch = .error () →
        updateSitesJsonFromUrl st fetch p = (st, false) ∧
          updateFullNameSitesJsonFromUrl st fetch p = (st, false)) ∧
      (∀ c, fetch = .ok c →
        (updateSitesJsonFromUrl st fetch p).1.sitesFile = some c ∧
          (updateFullNameSitesJsonFromUrl st fetch p).1.fullNameFile = some c) := by
  cases fetch with
  | error u =>
    cases u
    simp [updateSitesJsonFromUrl, updateFullNameSitesJsonFromUrl]
  | ok c =>
    cases hj : p c with
    | none => simp [updateSitesJsonFromUrl, updateFullNameSitesJsonFromUrl, hj]
    | some v =>
      cases v <;>
        simp [updateSitesJsonFromUrl, updateFullNameSitesJsonFromUrl, hj]

/-- Witness for C4 (amended): a network error leaves the catalog state
fully untouched and returns `false`. -/
theorem C4_amended_witness :
    updateSitesJsonFromUrl emptyCatalog (.error ()) (fun _ => none)
      = (emptyCatalog, false) :=
  ((C4_amended emptyCatalog (.error ()) (fun _ => none)).2.2.1 rfl).1

/-! ### C5 -/

/-- Counterexample to C5: for a `positive` check with a `status_code`
rule, the generic negative-phrase filter combined with the final
inversion turns an outcome that is `found = false` under the primary
rule alone into `found = true`. -/
theorem C5_counterexample :
    processResponseFound posUSite 200 "User not found" = true ∧
      processResponsePrimary posUSite 200 "User not found" = false := by
  decide

/-- C5 (amended): for every site whose `checkType` is not `positive`,
the generic negative-phrase filter only ever flips a primary
`found = true` to `found = false`, never the reverse, in the basic and
the dynamic username decision alike; with `checkType = positive` the
final inversion of the basic path can turn the filter's suppression
into `found = true`. -/
theorem C5_amended (site : USite) (st : Nat) (content : String)
    (h : site.checkType ≠ .positive) :
    (processResponseFound site st content = true →
        processResponsePrimary site st content = true) ∧
      (dynamicFoundU site st content = true →
        dynamicPrimaryU site st content = true) := by
  have hneg : site.checkType = .negative := by
    cases hc : site.checkType
    · exact absurd hc h
    · rfl
  cases he : site.errorType <;>
    by_cases h2 : 200 ≤ st ∧ st < 300 <;>
      simp [processResponseFound, processResponsePrimary, dynamicFoundU,
        dynamicPrimaryU, hneg, he, h2]

/-- Witness for C5 (amended): a negative `string`-rule site found by the
filtered decision is also found by the primary rule. -/
theorem C5_amended_witness :
    processResponsePrimary strUSite 200 "Welcome to the profile" = true :=
  (C5_amended strUSite 200 "Welcome to the profile" (by decide)).1 (by decide)

/-! ### C6 -/

/-- C6: a probe whose every attempt fails with a retryable network error
performs exactly `retries + 1` attempts and surfaces exactly one error
string, in the basic and the dynamic full-name strategy alike. -/
theorem C6_retry_exhaustion (site : FSite) (url : String) (att : Nat → Attempt)
    (h : ∀ j, att j = .netErr) :
    runBasic site url att
        = (.error ("Error checking basic site " ++ site.name),
           site.retries.getD 0 + 1) ∧
      runDynamic site url att
        = (.error ("Timeout checking dynamic site " ++ site.name),
           site.retries.getD 0 + 1) := by
  have hs : ∀ j, probeStep site (att j) = .retryNet := by
    intro j
    rw [h j]
    rfl
  constructor
  · rw [runBasic, runBasicAux_net site url att hs (site.retries.getD 0) 0]
    congr 1
    omega
  · rw [runDynamic, runDynamicAux_net site url att hs (site.retries.getD 0) 0]
    congr 1
    omega

/-- Witness for C6: the default Ratsit site (`retries = 2`) under
constant timeouts performs 3 attempts and yields one error string. -/
theorem C6_retry_exhaustion_witness :
    runBasic ratsitSite "https://www.ratsit.se/sok/person?who=x"
        (fun _ => .netErr)
      = (.error "Error checking basic site Ratsit", 3) := by
  have h := (C6_retry_exhaustion ratsitSite
    "https://www.ratsit.se/sok/person?who=x" (fun _ => .netErr)
    (fun _ => rfl)).1
  simpa [ratsitSite] using h

/-! ### C7 -/

/-- Counterexample to C7: an inactive basic-method site is still
scheduled by the username scan (the `active` flag is never consulted
there), contrary to the claim that both scans skip inactive sites. -/
theorem C7_counterexample :
    usernameScheduled [inactiveUSite] = [inactiveUSite] ∧
      inactiveUSite.active = false := by
  decide

/-- C7 (amended): the full-name scan schedules no task for an inactive
site (so it contributes neither an outcome nor an error), while the
username scan selects by `checkMethod` alone and schedules every site,
inactive ones included. -/
theorem C7_amended (p : FNParams) (hc : Bool) (site : FSite) (u : USite)
    (h : site.active = false) :
    fnTasksForSite p hc site = [] ∧ usernameScheduled [u] = [u] := by
  constructor
  · simp [fnTasksForSite, h]
  · cases hm : u.checkMethod <;> simp [usernameScheduled, List.filter, hm]

/-- Witness for C7 (amended): a concrete inactive full-name site yields
no tasks, and a concrete inactive username site is still scheduled. -/
theorem C7_amended_witness :
    fnTasksForSite {} false inactiveFSite = [] ∧
      usernameScheduled [inactiveUSite] = [inactiveUSite] :=
  C7_amended {} false inactiveFSite inactiveUSite rfl

/-! ### C8 -/

/-- Counterexample to C8: the dynamic full-name strategy does not return
a clean not-found outcome immediately — with `retries = 1` and every
attempt a non-exceptional not-found, it performs 2 attempts. -/
theorem C8_counterexample :
    runDynamic dynSite "https://people.example/search?q=john+doe"
        (fun _ => .ok 200 "No results found for john doe")
      = (.ok ⟨"DynSite", "https://people.example/search?q=john+doe",
              false, "dynamic"⟩, 2) ∧
      probeStep dynSite (.ok 200 "No results found for john doe")
        = .done false := by
  constructor <;> rfl

/-- C8 (amended): both full-name strategies re-attempt a non-exceptional
not-found while retry budget remains: under attempts that all complete
with `found = false`, the dynamic strategy returns the not-found outcome
only after `retries + 1` attempts, and the basic strategy likewise
performs `retries + 1` attempts — after which its return statement
raises `AttributeError` (`site.method.value` on a str field), so it
surfaces that error string instead of a not-found outcome. -/
theorem C8_amended (site : FSite) (url : String) (att : Nat → Attempt)
    (h : ∀ j, probeStep site (att j) = .done false) :
    runBasic site url att
        = (.error basicReturnError, site.retries.getD 0 + 1) ∧
      runDynamic site url att
        = (.ok ⟨site.name, url, false, "dynamic"⟩, site.retries.getD 0 + 1) := by
  constructor
  · rw [runBasic, runBasicAux_notFound site url att h (site.retries.getD 0) 0]
    congr 1
    omega
  · rw [runDynamic, runDynamicAux_notFound site url att h (site.retries.getD 0) 0]
    congr 1
    omega

/-- Witness for C8 (amended): the Ratsit site (`retries = 2`) under
clean not-found responses performs 3 basic attempts and then surfaces
the `AttributeError` message of the return statement. -/
theorem C8_amended_witness :
    runBasic ratsitSite "https://www.ratsit.se/sok/person?who=x"
        (fun _ => .ok 200 "Inga träffar just nu")
      = (.error basicReturnError, 3) := by
  have h := (C8_amended ratsitSite "https://www.ratsit.se/sok/person?who=x"
    (fun _ => .ok 200 "Inga träffar just nu") (fun _ => rfl)).1
  simpa [ratsitSite] using h

/-! ### C9 -/

/-- Counterexample to C9: a document with two structurally valid records
and one whose `id` has the wrong type loads as the empty catalog — the
wrong-typed record escapes the per-record `KeyError`/`TypeError`
handlers and the outer handler discards everything, instead of the load
yielding the two valid records. -/
theorem C9_counterexample :
    parseFullNameData mixedTypedDoc = [] ∧
      parseSiteInfo (goodRec "a") = .ok (goodRecSite "a") ∧
      parseSiteInfo (goodRec "b") = .ok (goodRecSite "b") ∧
      parseSiteInfo wrongTypedRec = .error .otherErr :=
  ⟨rfl, rfl, rfl, rfl⟩

/-- C9 (amended): when every failing record fails with a `KeyError` or
`TypeError` (e.g. a missing required field), loading succeeds and yields
exactly the valid records, each invalid one dropped individually; a
record failing any other way (e.g. pydantic type validation) resets the
whole full-name catalog to empty. -/
theorem C9_amended (l : List J)
    (h : l.all (fun x => !isOtherErr (parseSiteInfo x)) = true) :
    parseSitesList l = .ok (l.filterMap (fun x => exOk (parseSiteInfo x))) ∧
      ∀ c : String,
        parseFullNameData (.arr [.obj [("country", .str c), ("sites", .arr l)]])
          = [{ country := c, country_code := none,
               sites := l.filterMap (fun x => exOk (parseSiteInfo x)) }] := by
  have h1 : parseSitesList l
      = .ok (l.filterMap (fun x => exOk (parseSiteInfo x))) := by
    induction l with
    | nil => simp [parseSitesList]
    | cons x rest ih =>
      rw [List.all_cons, Bool.and_eq_true] at h
      cases hp : parseSiteInfo x with
      | ok s => simp [parseSitesList, hp, ih h.2, exOk, Except.map]
      | error k =>
        cases k with
        | keyErr => simp [parseSitesList, hp, ih h.2, exOk]
        | typeErr => simp [parseSitesList, hp, ih h.2, exOk]
        | otherErr =>
          rw [hp] at h
          simp [isOtherErr] at h
  refine ⟨h1, fun c => ?_⟩
  simp [parseFullNameData, parseCountryList, parseCountryData, jLookup, h1,
    Bind.bind, Except.bind, Pure.pure, Except.pure]

/-- Witness for C9 (amended): the spec scenario — one record among three
missing the required `urlTemplate` — loads the two valid records. -/
theorem C9_amended_witness :
    parseSitesList [goodRec "a", noUrlTemplateRec, goodRec "b"]
      = .ok [goodRecSite "a", goodRecSite "b"] := by
  rw [(C9_amended [goodRec "a", noUrlTemplateRec, goodRec "b"] (by decide)).1]
  rfl

/-! ### C10 -/

/-- Looking up a key after a dictionary assignment. -/
theorem jLookup_jSet (f : List (String × J)) (k k' : String) (v : J) :
    jLookup (jSet f k v) k' = if k' = k then some v else jLookup f k' := by
  induction f with
  | nil =>
    by_cases h : k' = k
    · simp [jSet, jLookup, h]
    · have h' : ¬ k = k' := fun hh => h hh.symm
      simp [jSet, jLookup, h, h']
  | cons hd tl ih =>
    obtain ⟨k0, v0⟩ := hd
    by_cases h0 : k0 = k <;> by_cases h1 : k' = k
    · subst h1
      simp [jSet, jLookup, h0]
    · have h2 : ¬ k = k' := fun hh => h1 hh.symm
      have h3 : ¬ k0 = k' := h0 ▸ h2
      simp [jSet, jLookup, h0, h1, h2, h3]
    · subst h1
      simp [jSet, jLookup, h0, ih]
    · by_cases h3 : k0 = k'
      · simp [jSet, jLookup, h0, h1, h3, ih]
      · simp [jSet, jLookup, h0, h1, h3, ih]

/-- Validating a list of JSON strings recovers the strings. -/
theorem pyStrListAux_map (l : List String) :
    pyStrListAux (l.map .str) = .ok l := by
  induction l with
  | nil => rfl
  | cons s rest ih => simp [pyStrListAux, ih, Except.map]

/-- Counterexample to C10: a legacy record with a string `url` but
neither `id` nor `name` fails validation (no id can be generated), and
for the name `"My Site!"` the generated id is `"my_site_legacy"` — the
underscore-stripped slug — not the claim's literal
replace-and-lowercase slug followed by `"_legacy"`. -/
theorem C10_counterexample :
    siteModelValidate legacyOnlyUrlRec = none ∧
      (siteModelValidate legacyNamedRec).map (fun r => r.id)
        = some "my_site_legacy" ∧
      claimSlug "My Site!" ++ "_legacy" = "my_site__legacy" ∧
      ("my_site_legacy" : String) ≠ "my_site__legacy" :=
  ⟨rfl, rfl, rfl, by decide⟩

/-- C10 (amended): a legacy record with a string `url`, no
`urlTemplate`, no `id`, a string `name`, and none of the other modelled
keys present validates successfully; its `urlTemplate` is the `url`
value and its id is the slug of the name — non-alphanumerics replaced by
underscores, lowercased, leading and trailing underscores stripped —
followed by `"_legacy"` (the remaining fields come from the coercion
defaults). -/
theorem C10_amended (f : List (String × J)) (u n : String)
    (hUT : jLookup f "urlTemplate" = none) (hU : jLookup f "url" = some (.str u))
    (hId : jLookup f "id" = none) (hN : jLookup f "name" = some (.str n))
    (hH : jLookup f "homeUrl" = none) (hP : jLookup f "placeholders" = none)
    (hR : jLookup f "requiresJs" = none) (hC : jLookup f "checkMethod" = none)
    (hE : jLookup f "urlEncode" = none) (hM : jLookup f "method" = none)
    (hRT : jLookup f "responseType" = none)
    (hRM : jLookup f "resultMatcher" = none) :
    siteModelValidate (.obj f)
      = some { id := slugify n ++ "_legacy", name := n, urlTemplate := u,
               homeUrl := inferHomeUrl u, placeholders := derivePlaceholders u,
               urlEncode := false, method := "GET", responseType := "html",
               requiresJs := false } := by
  cases hInf : inferHomeUrl u with
  | none =>
    simp [siteModelValidate, coerceLegacy, coerceFields, jLookup_jSet,
      hUT, hU, hId, hN, hH, hP, hR, hC, hE, hM, hRT, hRM, hInf,
      pyStr, pyOptStr, pyBool, pyStrList, pyStrListAux_map]
  | some hm =>
    simp [siteModelValidate, coerceLegacy, coerceFields, jLookup_jSet,
      hUT, hU, hId, hN, hH, hP, hR, hC, hE, hM, hRT, hRM, hInf,
      pyStr, pyOptStr, pyBool, pyStrList, pyStrListAux_map]

/-- Witness for C10 (amended): the `"My Site!"` legacy record validates
to a site with the `url` as `urlTemplate` and the stripped-slug id. -/
theorem C10_amended_witness :
    siteModelValidate legacyNamedRec
      = some { id := "my_site_legacy", name := "My Site!",
               urlTemplate := "https://legacy.example/\x7b\x7d",
               homeUrl := some "https://legacy.example",
               placeholders := ["username"], urlEncode := false,
               method := "GET", responseType := "html",
               requiresJs := false } := by
  have h := C10_amended
    [("name", .str "My Site!"), ("url", .str "https://legacy.example/\x7b\x7d")]
    "https://legacy.example/\x7b\x7d" "My Site!"
    rfl rfl rfl rfl rfl rfl rfl rfl rfl rfl rfl rfl
  exact h.trans (by decide)

end OSINT
